import Mathlib

/-!
Verification of the electricity-market transformation core (`premise/electricity.py`)
against its natural-language specification.

The Python source is shallowly embedded: wurst datasets become the `Dataset`
structure, exchanges become `Exchange`, real-valued amounts are modelled as `ℚ`
(the Python code uses floats but performs only field arithmetic), and code that
can raise an exception is modelled with `Option`/`Except` (`none`/`.error`
standing for the raised exception).
-/

set_option autoImplicit false

namespace PremiseElec

/-- An exchange (flow) of a wurst dataset: the fields relevant here are
`name`, `product`, `location`, `unit`, `amount` and the exchange `kind`
(`"production"`, `"technosphere"` or `"biosphere"`). -/
structure Exchange where
  name : String
  product : String
  location : String
  unit : String
  amount : ℚ
  kind : String
  deriving DecidableEq, Repr

/-- A wurst dataset: the fields relevant here are `name`, `reference product`,
`location`, `unit` and the list of exchanges. -/
structure Dataset where
  name : String
  referenceProduct : String
  location : String
  unit : String
  exchanges : List Exchange := []
  deriving DecidableEq, Repr

/-- The production index `self.production_per_tech`: a mapping from
(dataset name, dataset location) to a production volume.  A pair absent from
the Python dictionary is looked up with `.get(..., 0)`, which we model by
letting the function itself return the default `0`. -/
def ProductionIndex : Type := String × String → ℚ

/-- `Electricity.get_production_weighted_share`: the share of production of a
supplier relative to the summed production volumes of the whole supplier list;
if the summed volume is zero, an equal share `1 / len(suppliers)` is returned. -/
def getProductionWeightedShare (prodIdx : ProductionIndex)
    (supplier : Dataset) (suppliers : List Dataset) : ℚ :=
  let locProduction := prodIdx (supplier.name, supplier.location)
  let totalProduction := (suppliers.map fun s => prodIdx (s.name, s.location)).sum
  if totalProduction ≠ 0 then locProduction / totalProduction
  else 1 / (suppliers.length : ℚ)

/-- `Electricity.check_for_production_volume`: keep only the suppliers whose
production-weighted share (relative to the full list) is nonzero. -/
def checkForProductionVolume (prodIdx : ProductionIndex)
    (suppliers : List Dataset) : List Dataset :=
  suppliers.filter fun s => getProductionWeightedShare prodIdx s suppliers ≠ 0

/-- The supplier-allocation pipeline shared by
`create_new_markets_high_voltage` and `create_new_markets_low_voltage`:
drop suppliers without production volume, compute production-weighted shares,
remove suppliers whose share is not above 0.1 %, and rescale the remaining
shares by their total. -/
def allocateSuppliers (prodIdx : ProductionIndex)
    (suppliers : List Dataset) : List (Dataset × ℚ) :=
  let sups := checkForProductionVolume prodIdx suppliers
  let techSuppliers := sups.map fun s => (s, getProductionWeightedShare prodIdx s sups)
  let filtered := techSuppliers.filter fun p => p.2 > 1 / 1000
  let totalShare := (filtered.map fun p => p.2).sum
  filtered.map fun p => (p.1, p.2 / totalShare)

theorem sum_map_div {α : Type} (l : List α) (f : α → ℚ) (c : ℚ) :
    (l.map fun x => f x / c).sum = (l.map f).sum / c := by
  induction l with
  | nil => simp
  | cons a t ih => simp [ih, add_div]

/-- **C2** For every non-empty supplier list, `get_production_weighted_share`
assigns each supplier the share (own indexed volume) / (summed indexed volume)
when that sum is nonzero, and assigns every supplier the equal share
1 / (number of suppliers) when the summed volume is zero; the function is
total (no error is raised). -/
theorem production_weighted_share_spec (prodIdx : ProductionIndex)
    (suppliers : List Dataset) (hne : suppliers ≠ []) :
    ((suppliers.map fun s => prodIdx (s.name, s.location)).sum ≠ 0 →
      ∀ s ∈ suppliers,
        getProductionWeightedShare prodIdx s suppliers =
          prodIdx (s.name, s.location) /
            (suppliers.map fun s => prodIdx (s.name, s.location)).sum) ∧
    ((suppliers.map fun s => prodIdx (s.name, s.location)).sum = 0 →
      ∀ s ∈ suppliers,
        getProductionWeightedShare prodIdx s suppliers =
          1 / (suppliers.length : ℚ)) := by
  constructor
  · intro htot s _
    simp only [getProductionWeightedShare]
    rw [if_pos htot]
  · intro htot s _
    simp only [getProductionWeightedShare]
    rw [if_neg (by simp [htot])]

/-- A concrete coal power plant dataset used in witnesses. -/
def coalPlantA : Dataset :=
  ⟨"electricity production, hard coal, plant A", "electricity, high voltage",
    "DE", "kilowatt hour", []⟩

/-- A second concrete coal power plant dataset used in witnesses. -/
def coalPlantB : Dataset :=
  ⟨"electricity production, hard coal, plant B", "electricity, high voltage",
    "PL", "kilowatt hour", []⟩

/-- A concrete production index used in witnesses: plant A has production
volume 80, plant B has volume 20, everything else is unindexed. -/
def coalProdIdx : ProductionIndex := fun p =>
  if p = (coalPlantA.name, coalPlantA.location) then 80
  else if p = (coalPlantB.name, coalPlantB.location) then 20
  else 0

/-- Witness for C2 at a concrete input: of two suppliers with volumes 80 and
20, the first receives share 4/5. -/
theorem production_weighted_share_spec_witness :
    getProductionWeightedShare coalProdIdx coalPlantA [coalPlantA, coalPlantB] = 4 / 5 := by
  have h := production_weighted_share_spec coalProdIdx [coalPlantA, coalPlantB] (by simp)
  have h1 := h.1 (by simp [coalProdIdx, coalPlantA, coalPlantB]; norm_num)
    coalPlantA (by simp)
  rw [h1]
  simp [coalProdIdx, coalPlantA, coalPlantB]
  norm_num

/-- **C3** After removing suppliers whose share is not above the 0.1 %
threshold and rescaling the remaining shares by their total, the shares of the
completed allocation sum to exactly 1, or the allocation list is empty. -/
theorem allocation_shares_sum_to_one (prodIdx : ProductionIndex)
    (suppliers : List Dataset) :
    allocateSuppliers prodIdx suppliers = [] ∨
      ((allocateSuppliers prodIdx suppliers).map fun p => p.2).sum = 1 := by
  simp only [allocateSuppliers]
  set sups := checkForProductionVolume prodIdx suppliers with hsups
  set techSuppliers :=
    sups.map fun s => (s, getProductionWeightedShare prodIdx s sups) with hts
  set filtered := techSuppliers.filter fun p => p.2 > 1 / 1000 with hf
  by_cases hemp : filtered = []
  · left
    simp [hemp]
  · right
    have hpos : 0 < ((filtered.map fun p => p.2).sum) := by
      apply List.sum_pos
      · intro q hq
        obtain ⟨p, hp, rfl⟩ := List.mem_map.mp hq
        have := List.of_mem_filter hp
        have hgt : p.2 > 1 / 1000 := by simpa using this
        linarith
      · simpa using hemp
    have hmap : ((filtered.map fun p => (p.1, p.2 / (filtered.map fun p => p.2).sum)).map
        fun p => p.2).sum
        = (filtered.map fun p => p.2 / (filtered.map fun p => p.2).sum).sum := by
      simp only [List.map_map]
      rfl
    rw [hmap, sum_map_div]
    exact div_self (ne_of_gt hpos)

/-! ### Loss model (`get_production_weighted_losses`) -/

/-- One row of the static per-country loss table
(`losses_per_country.csv`): transformation/transmission loss columns and the
production-volume weight column. -/
structure LossRecord where
  transfHigh : ℚ := 0
  transfMedium : ℚ := 0
  distrMedium : ℚ := 0
  transfLow : ℚ := 0
  distrLow : ℚ := 0
  volume : ℚ := 0
  deriving DecidableEq, Repr

/-- The static loss table: `none` for a location absent from the table. -/
def LossTable : Type := String → Option LossRecord

/-- The record a missing location defaults to: `losses.get(loc, {...: 0.0})`
in the Python source yields zero losses and zero production volume. -/
def zeroLossRecord : LossRecord := {}

/-- Table lookup with the explicit zero-loss, zero-volume default. -/
def lookupLoss (losses : LossTable) (loc : String) : LossRecord :=
  (losses loc).getD zeroLossRecord

/-- Transformation and distribution loss fractions of one voltage tier. -/
structure VoltageLosses where
  transf : ℚ
  distr : ℚ
  deriving DecidableEq, Repr

/-- The per-region loss profile returned by `get_production_weighted_losses`. -/
structure LossProfile where
  high : VoltageLosses
  medium : VoltageLosses
  low : VoltageLosses
  deriving DecidableEq, Repr

/-- `cumul_prod`: summed production volume over the region's locations. -/
def totalVolume (losses : LossTable) (locs : List String) : ℚ :=
  (locs.map fun loc => (lookupLoss losses loc).volume).sum

/-- One production-weighted average over a loss column, as computed by each
of the three per-tier loops of `get_production_weighted_losses`: the loop sums
`loss * volume` and `volume`, then divides.  A zero cumulated volume makes the
Python division `transf_loss /= cumul_prod` raise `ZeroDivisionError`,
modelled by `none`. -/
def weightedLossAvg (losses : LossTable) (locs : List String)
    (column : LossRecord → ℚ) : Option ℚ :=
  let num := (locs.map fun loc =>
    column (lookupLoss losses loc) * (lookupLoss losses loc).volume).sum
  if totalVolume losses locs = 0 then none
  else some (num / totalVolume losses locs)

/-- `get_production_weighted_losses`: production-weighted transformation and
distribution losses for the three voltage tiers (the high tier has an explicit
distribution loss of 0). -/
def getProductionWeightedLosses (losses : LossTable) (locs : List String) :
    Option LossProfile := do
  let highTransf ← weightedLossAvg losses locs fun r => r.transfHigh
  let medTransf ← weightedLossAvg losses locs fun r => r.transfMedium
  let medDistr ← weightedLossAvg losses locs fun r => r.distrMedium
  let lowTransf ← weightedLossAvg losses locs fun r => r.transfLow
  let lowDistr ← weightedLossAvg losses locs fun r => r.distrLow
  pure ⟨⟨highTransf, 0⟩, ⟨medTransf, medDistr⟩, ⟨lowTransf, lowDistr⟩⟩

/-- All loss and volume entries of a record are nonnegative. -/
def lossRecordNonneg (r : LossRecord) : Prop :=
  0 ≤ r.transfHigh ∧ 0 ≤ r.transfMedium ∧ 0 ≤ r.distrMedium ∧
    0 ≤ r.transfLow ∧ 0 ≤ r.distrLow ∧ 0 ≤ r.volume

/-- **C4 counterexample** For a region all of whose constituent locations are
absent from the static loss table, `get_production_weighted_losses` does not
complete with the zero-loss default: the division by the zero cumulated
production volume raises (`none`), refuting the claim that the computation
returns the table's zero default. -/
theorem loss_model_all_absent_raises :
    getProductionWeightedLosses (fun _ => none) ["ZZ"] = none := by
  have hv : totalVolume (fun _ => none) ["ZZ"] = 0 := by
    simp [totalVolume, lookupLoss, zeroLossRecord]
  simp [getProductionWeightedLosses, weightedLossAvg, hv]

theorem weightedLossAvg_nonneg (losses : LossTable) (locs : List String)
    (column : LossRecord → ℚ)
    (hn : ∀ loc, 0 ≤ column (lookupLoss losses loc) ∧ 0 ≤ (lookupLoss losses loc).volume)
    (hv : totalVolume losses locs ≠ 0) :
    ∃ q, weightedLossAvg losses locs column = some q ∧ 0 ≤ q := by
  refine ⟨_, by rw [weightedLossAvg, if_neg hv], ?_⟩
  have hnum : 0 ≤ (locs.map fun loc =>
      column (lookupLoss losses loc) * (lookupLoss losses loc).volume).sum := by
    apply List.sum_nonneg
    intro x hx
    obtain ⟨loc, _, rfl⟩ := List.mem_map.mp hx
    exact mul_nonneg (hn loc).1 (hn loc).2
  have hden : 0 ≤ totalVolume losses locs := by
    apply List.sum_nonneg
    intro x hx
    obtain ⟨loc, _, rfl⟩ := List.mem_map.mp hx
    exact (hn loc).2
  exact div_nonneg hnum hden

/-- **C4 (amended)** Provided every table entry is nonnegative: for every
region whose constituent locations have a nonzero summed production volume,
the loss model completes and every computed loss fraction is ≥ 0; but for a
region all of whose constituent locations are absent from the table, the
computation raises a division-by-zero error (`none`) instead of returning the
table's zero-loss default. -/
theorem loss_model_nonneg_or_raises (losses : LossTable) (locs : List String)
    (hn : ∀ loc, lossRecordNonneg (lookupLoss losses loc)) :
    (totalVolume losses locs ≠ 0 →
      ∃ p, getProductionWeightedLosses losses locs = some p ∧
        0 ≤ p.high.transf ∧ 0 ≤ p.high.distr ∧
        0 ≤ p.medium.transf ∧ 0 ≤ p.medium.distr ∧
        0 ≤ p.low.transf ∧ 0 ≤ p.low.distr) ∧
    ((∀ loc ∈ locs, losses loc = none) →
      getProductionWeightedLosses losses locs = none) := by
  constructor
  · intro hv
    obtain ⟨q1, he1, hq1⟩ := weightedLossAvg_nonneg losses locs (fun r => r.transfHigh)
      (fun loc => ⟨(hn loc).1, (hn loc).2.2.2.2.2⟩) hv
    obtain ⟨q2, he2, hq2⟩ := weightedLossAvg_nonneg losses locs (fun r => r.transfMedium)
      (fun loc => ⟨(hn loc).2.1, (hn loc).2.2.2.2.2⟩) hv
    obtain ⟨q3, he3, hq3⟩ := weightedLossAvg_nonneg losses locs (fun r => r.distrMedium)
      (fun loc => ⟨(hn loc).2.2.1, (hn loc).2.2.2.2.2⟩) hv
    obtain ⟨q4, he4, hq4⟩ := weightedLossAvg_nonneg losses locs (fun r => r.transfLow)
      (fun loc => ⟨(hn loc).2.2.2.1, (hn loc).2.2.2.2.2⟩) hv
    obtain ⟨q5, he5, hq5⟩ := weightedLossAvg_nonneg losses locs (fun r => r.distrLow)
      (fun loc => ⟨(hn loc).2.2.2.2.1, (hn loc).2.2.2.2.2⟩) hv
    refine ⟨⟨⟨q1, 0⟩, ⟨q2, q3⟩, ⟨q4, q5⟩⟩, ?_, hq1, le_refl 0, hq2, hq3, hq4, hq5⟩
    simp [getProductionWeightedLosses, he1, he2, he3, he4, he5]
  · intro habs
    have hv : totalVolume losses locs = 0 := by
      rw [totalVolume]
      apply List.sum_eq_zero
      intro x hx
      obtain ⟨loc, hloc, rfl⟩ := List.mem_map.mp hx
      rw [lookupLoss, habs loc hloc]
      rfl
    rw [getProductionWeightedLosses]
    simp [weightedLossAvg, hv]

/-- A concrete loss table used in witnesses: only location `"DE"` is present. -/
def demoLossTable : LossTable := fun loc =>
  if loc = "DE" then
    some { transfHigh := 1/100, transfMedium := 2/100, distrMedium := 5/100,
           transfLow := 3/100, distrLow := 8/100, volume := 50 }
  else none

/-- Witness for the amended C4: with the concrete table `demoLossTable` and a
region containing locations `"DE"` (present) and `"XX"` (absent), the loss
model completes with nonnegative fractions; and the region whose single
location `"ZZ"` is absent makes it raise. -/
theorem loss_model_nonneg_or_raises_witness :
    (∃ p, getProductionWeightedLosses demoLossTable ["DE", "XX"] = some p ∧
        0 ≤ p.high.transf ∧ 0 ≤ p.high.distr ∧
        0 ≤ p.medium.transf ∧ 0 ≤ p.medium.distr ∧
        0 ≤ p.low.transf ∧ 0 ≤ p.low.distr) ∧
      getProductionWeightedLosses demoLossTable ["ZZ"] = none := by
  have h1 := loss_model_nonneg_or_raises demoLossTable ["DE", "XX"] ?hn
  case hn =>
    intro loc
    rw [lookupLoss, demoLossTable]
    by_cases hloc : loc = "DE" <;>
      simp [hloc, lossRecordNonneg, zeroLossRecord] <;> norm_num
  have h2 := loss_model_nonneg_or_raises demoLossTable ["ZZ"] ?hn2
  case hn2 =>
    intro loc
    rw [lookupLoss, demoLossTable]
    by_cases hloc : loc = "DE" <;>
      simp [hloc, lossRecordNonneg, zeroLossRecord] <;> norm_num
  refine ⟨h1.1 ?_, h2.2 ?_⟩
  · have hval : totalVolume demoLossTable ["DE", "XX"] = 50 := by
      rw [totalVolume]
      simp only [List.map_cons, List.map_nil, lookupLoss, demoLossTable]
      rw [if_neg (show ¬("XX" = "DE") from by decide)]
      simp [zeroLossRecord]
    rw [hval]
    norm_num
  · intro loc hloc
    simp at hloc
    simp [demoLossTable, hloc]

/-! ### Supplier resolver (fallback location chain) -/

/-- A supplier query: what `get_suppliers_of_a_region` returns for one entry
of the fallback location list (matching on names, reference product
`"electricity"` and unit `"kilowatt hour"` is kept abstract, since that
collaborator lives outside this module). -/
def SupplierQuery : Type := List String → List Dataset

/-- The fallback location chain used by both the high- and the low-voltage
builders: exact IAM region, the region's constituent ecoinvent locations,
`RER`, `RoW`, and finally `CH`. -/
def possibleLocations (region : String) (ecoinventRegions : List String) :
    List (List String) :=
  [[region], ecoinventRegions, ["RER"], ["RoW"], ["CH"]]

/-- The `while len(suppliers) == 0` loop over `possible_locations[counter]`:
take the first location scope with a non-empty match; when every scope is
exhausted the next list indexing raises `IndexError`, modelled by
`.error ()`. -/
def resolveSuppliers (query : SupplierQuery) :
    List (List String) → Except Unit (List Dataset)
  | [] => .error ()
  | locs :: rest =>
    let sups := query locs
    if sups.isEmpty then resolveSuppliers query rest else .ok sups

/-- Per-technology supplier handling of `create_new_markets_high_voltage`:
the resolver runs inside `try/except IndexError`; on exhaustion the
technology is skipped (`.ok none`) in the consequential system model and the
error propagates otherwise.  On success the allocation pipeline runs. -/
def highVoltageTechSuppliers (systemModel : String) (prodIdx : ProductionIndex)
    (query : SupplierQuery) (chain : List (List String)) :
    Except Unit (Option (List (Dataset × ℚ))) :=
  match resolveSuppliers query chain with
  | .error () => if systemModel = "consequential" then .ok none else .error ()
  | .ok sups => .ok (some (allocateSuppliers prodIdx sups))

/-- Per-technology supplier handling of `create_new_markets_low_voltage`:
the resolver loop has no `try/except`, so exhaustion always propagates the
`IndexError`, whatever the system model. -/
def lowVoltageTechSuppliers (prodIdx : ProductionIndex)
    (query : SupplierQuery) (chain : List (List String)) :
    Except Unit (List (Dataset × ℚ)) :=
  match resolveSuppliers query chain with
  | .error () => .error ()
  | .ok sups => .ok (allocateSuppliers prodIdx sups)

/-- A supplier query that never matches, exhausting every fallback scope. -/
def emptyQuery : SupplierQuery := fun _ => []

/-- **C5 counterexample** In the consequential operating mode, exhausting the
fallback chain during low-voltage market construction does not skip the
technology: the `IndexError` propagates (there is no `try/except` around the
low-voltage resolver loop), so the run fails rather than continuing — the
system model is not even consulted. -/
theorem low_voltage_exhaustion_raises_in_consequential :
    lowVoltageTechSuppliers (fun _ => 0) emptyQuery
      (possibleLocations "EUR" ["DE", "FR"]) = .error () := by
  rfl

/-- **C5 (amended)** When the fallback chain (exact region, constituent
ecoinvent locations, RER, RoW, CH) is exhausted with no match: in high-voltage
construction the run fails fatally in a non-consequential system model and the
technology is silently skipped in the consequential one; in low-voltage
construction the run fails fatally in both system models. -/
theorem resolution_exhaustion_modes (systemModel : String)
    (prodIdx : ProductionIndex) (query : SupplierQuery)
    (chain : List (List String))
    (hx : resolveSuppliers query chain = .error ()) :
    highVoltageTechSuppliers "consequential" prodIdx query chain = .ok none ∧
    (systemModel ≠ "consequential" →
      highVoltageTechSuppliers systemModel prodIdx query chain = .error ()) ∧
    lowVoltageTechSuppliers prodIdx query chain = .error () := by
  refine ⟨?_, ?_, ?_⟩
  · rw [highVoltageTechSuppliers, hx]
    simp
  · intro hm
    rw [highVoltageTechSuppliers, hx]
    simp [hm]
  · rw [lowVoltageTechSuppliers, hx]

/-- Witness for the amended C5 at a concrete input: an empty database
(no supplier in any fallback scope), the cutoff system model for the fatal
branch, and the consequential one for the skipping branch. -/
theorem resolution_exhaustion_modes_witness :
    highVoltageTechSuppliers "consequential" (fun _ => 0) emptyQuery
      (possibleLocations "EUR" ["DE", "FR"]) = .ok none ∧
    highVoltageTechSuppliers "cutoff" (fun _ => 0) emptyQuery
      (possibleLocations "EUR" ["DE", "FR"]) = .error () ∧
    lowVoltageTechSuppliers (fun _ => 0) emptyQuery
      (possibleLocations "EUR" ["DE", "FR"]) = .error () := by
  have h := resolution_exhaustion_modes "cutoff" (fun _ => 0) emptyQuery
    (possibleLocations "EUR" ["DE", "FR"]) (by rfl)
  exact ⟨h.1, h.2.1 (by decide), h.2.2⟩

/-! ### Market cascade builder: names and incidental flows -/

/-- Name suffix of a period-averaged market variant: empty for period 0,
`", {period}-year period"` otherwise. -/
def periodSuffix (period : Nat) : String :=
  if period = 0 then "" else ", " ++ toString period ++ "-year period"

/-- Name of the high-voltage market dataset of a given period. -/
def hvMarketName (period : Nat) : String :=
  "market group for electricity, high voltage" ++ periodSuffix period

/-- Name of the medium-voltage market dataset of a given period. -/
def mvMarketName (period : Nat) : String :=
  "market group for electricity, medium voltage" ++ periodSuffix period

/-- Name of the low-voltage market dataset of a given period. -/
def lvMarketName (period : Nat) : String :=
  "market group for electricity, low voltage" ++ periodSuffix period

/-- One supplier tuple with its share, as returned by
`select_multiple_suppliers` (used for the sulfur-hexafluoride and network
construction inputs). -/
structure SupplierShare where
  name : String
  location : String
  product : String
  unit : String
  share : ℚ
  deriving DecidableEq, Repr

/-- Technosphere flows of amount `coeff * share` to each supplier of an
incidental input (SF6 supply, network construction). -/
def supplierFlows (coeff : ℚ) (sups : List SupplierShare) : List Exchange :=
  sups.map fun s =>
    { name := s.name, product := s.product, location := s.location,
      unit := s.unit, amount := coeff * s.share, kind := "technosphere" }

/-- The biosphere emission of sulfur hexafluoride compensating the
transformer leakage. -/
def sf6Emission (amount : ℚ) : Exchange :=
  { name := "Sulfur hexafluoride", product := "", location := "",
    unit := "kilogram", amount := amount, kind := "biosphere" }

/-- The exchange list of one medium-voltage market dataset built by
`create_new_markets_medium_voltage` for a region and period: the production
exchange, the input from the high-voltage market including distribution loss,
the self-consuming transformation-loss input, the SF6 supply flows
(coefficient 5.4e-8), the SF6 emission, and the transmission-network flows
(coefficient 1.8628e-8). -/
def buildMediumVoltageExchanges (region : String) (period : Nat)
    (transf distr : ℚ) (sf6Sups netSups : List SupplierShare) : List Exchange :=
  [{ name := mvMarketName period, product := "electricity, medium voltage",
     location := region, unit := "kilowatt hour", amount := 1,
     kind := "production" },
   { name := hvMarketName period, product := "electricity, high voltage",
     location := region, unit := "kilowatt hour", amount := 1 + distr,
     kind := "technosphere" },
   { name := mvMarketName period, product := "electricity, medium voltage",
     location := region, unit := "kilowatt hour", amount := transf,
     kind := "technosphere" }]
  ++ supplierFlows (54 / 1000000000) sf6Sups
  ++ [sf6Emission (54 / 1000000000)]
  ++ supplierFlows (18628 / 1000000000000) netSups

theorem filter_supplierFlows_eq_nil (coeff : ℚ) (sups : List SupplierShare)
    (prod : String) (h : ∀ s ∈ sups, s.product ≠ prod) :
    (supplierFlows coeff sups).filter
      (fun e => e.kind == "technosphere" && e.product == prod) = [] := by
  apply List.filter_eq_nil_iff.mpr
  intro e he
  obtain ⟨s, hs, rfl⟩ := List.mem_map.mp he
  simp [h s hs]

/-- **C7** For every region and period (and any losses and incidental
suppliers whose products are not the electricity products themselves), the
medium-voltage market contains a single technosphere input of the
high-voltage product — from the high-voltage market of the same period, of
amount 1 + distribution loss — and a single technosphere flow of its own
medium-voltage product: the self-loop of amount equal to the transformation
loss. -/
theorem medium_voltage_market_flows (region : String) (period : Nat)
    (transf distr : ℚ) (sf6Sups netSups : List SupplierShare)
    (h : ∀ s ∈ sf6Sups ++ netSups,
      s.product ≠ "electricity, high voltage" ∧
        s.product ≠ "electricity, medium voltage") :
    (buildMediumVoltageExchanges region period transf distr sf6Sups netSups).filter
        (fun e => e.kind == "technosphere" && e.product == "electricity, high voltage") =
      [{ name := hvMarketName period, product := "electricity, high voltage",
         location := region, unit := "kilowatt hour", amount := 1 + distr,
         kind := "technosphere" }] ∧
    (buildMediumVoltageExchanges region period transf distr sf6Sups netSups).filter
        (fun e => e.kind == "technosphere" && e.product == "electricity, medium voltage") =
      [{ name := mvMarketName period, product := "electricity, medium voltage",
         location := region, unit := "kilowatt hour", amount := transf,
         kind := "technosphere" }] := by
  have h1 : ∀ s ∈ sf6Sups, s.product ≠ "electricity, high voltage" :=
    fun s hs => (h s (List.mem_append_left _ hs)).1
  have h2 : ∀ s ∈ netSups, s.product ≠ "electricity, high voltage" :=
    fun s hs => (h s (List.mem_append_right _ hs)).1
  have h3 : ∀ s ∈ sf6Sups, s.product ≠ "electricity, medium voltage" :=
    fun s hs => (h s (List.mem_append_left _ hs)).2
  have h4 : ∀ s ∈ netSups, s.product ≠ "electricity, medium voltage" :=
    fun s hs => (h s (List.mem_append_right _ hs)).2
  constructor
  · rw [buildMediumVoltageExchanges]
    rw [List.filter_append, List.filter_append, List.filter_append]
    rw [filter_supplierFlows_eq_nil _ _ _ h1, filter_supplierFlows_eq_nil _ _ _ h2]
    simp [sf6Emission]
  · rw [buildMediumVoltageExchanges]
    rw [List.filter_append, List.filter_append, List.filter_append]
    rw [filter_supplierFlows_eq_nil _ _ _ h3, filter_supplierFlows_eq_nil _ _ _ h4]
    simp [sf6Emission]

/-- Witness for C7 at the claim's scenario: distribution loss 0.05 and
transformation loss 0.02 give a high-voltage input of amount 1.05 = 21/20 and
a self-loop of amount 0.02 = 1/50. -/
theorem medium_voltage_market_flows_witness :
    (buildMediumVoltageExchanges "EUR" 0 (1/50) (1/20) [] []).filter
        (fun e => e.kind == "technosphere" && e.product == "electricity, high voltage") =
      [{ name := hvMarketName 0, product := "electricity, high voltage",
         location := "EUR", unit := "kilowatt hour", amount := 21/20,
         kind := "technosphere" }] ∧
    (buildMediumVoltageExchanges "EUR" 0 (1/50) (1/20) [] []).filter
        (fun e => e.kind == "technosphere" && e.product == "electricity, medium voltage") =
      [{ name := mvMarketName 0, product := "electricity, medium voltage",
         location := "EUR", unit := "kilowatt hour", amount := 1/50,
         kind := "technosphere" }] := by
  have h := medium_voltage_market_flows "EUR" 0 (1/50) (1/20) [] [] (by simp)
  refine ⟨?_, h.2⟩
  rw [h.1]
  norm_num

/-! ### Low-voltage market construction -/

/-- A technosphere flow to a resolved supplier dataset. -/
def supplierTechnoFlow (s : Dataset) (amount : ℚ) : Exchange :=
  { name := s.name, product := s.referenceProduct, location := s.location,
    unit := s.unit, amount := amount, kind := "technosphere" }

/-- The solar loop of `create_new_markets_low_voltage`: iterate over the
residential-solar technologies; each technology with a positive mix value
adds its value to `solar_amount` and appends one technosphere flow of amount
`amount * share` per allocated supplier. -/
def solarFold (mix : String → ℚ)
    (techSuppliers : String → List (Dataset × ℚ)) (techs : List String) :
    ℚ × List Exchange :=
  techs.foldl
    (fun acc t =>
      if mix t > 0 then
        (acc.1 + mix t,
          acc.2 ++ (techSuppliers t).map fun p => supplierTechnoFlow p.1 (mix t * p.2))
      else acc)
    (0, [])

/-- The residential-solar share of the mix: the sum of the positive mix
values of the residential-solar technologies. -/
def solarResidentialAmount (techs : List String) (mix : String → ℚ) : ℚ :=
  (techs.map fun t => if mix t > 0 then mix t else 0).sum

/-- The exchange list of one low-voltage market dataset built by
`create_new_markets_low_voltage` for a region and period: the production
exchange, SF6 supply flows (coefficient 2.99e-9), the SF6 emission, the
distribution-network flows (coefficient 8.74e-8), the direct
residential-solar supplier flows, the input from the medium-voltage market of
amount (1 - solar amount) × (1 + distribution loss), and the self-consuming
transformation-loss input. -/
def buildLowVoltageExchanges (region : String) (period : Nat)
    (transf distr : ℚ) (techs : List String) (mix : String → ℚ)
    (techSuppliers : String → List (Dataset × ℚ))
    (sf6Sups netSups : List SupplierShare) : List Exchange :=
  let solar := solarFold mix techSuppliers techs
  [{ name := lvMarketName period, product := "electricity, low voltage",
     location := region, unit := "kilowatt hour", amount := 1,
     kind := "production" }]
  ++ supplierFlows (299 / 100000000000) sf6Sups
  ++ [sf6Emission (299 / 100000000000)]
  ++ supplierFlows (874 / 10000000000) netSups
  ++ solar.2
  ++ [{ name := mvMarketName period, product := "electricity, medium voltage",
        location := region, unit := "kilowatt hour",
        amount := (1 - solar.1) * (1 + distr), kind := "technosphere" },
      { name := lvMarketName period, product := "electricity, low voltage",
        location := region, unit := "kilowatt hour", amount := transf,
        kind := "technosphere" }]

theorem solarFold_go_fst (mix : String → ℚ)
    (techSuppliers : String → List (Dataset × ℚ)) (techs : List String) :
    ∀ acc : ℚ × List Exchange,
      (techs.foldl
        (fun acc t =>
          if mix t > 0 then
            (acc.1 + mix t,
              acc.2 ++ (techSuppliers t).map fun p => supplierTechnoFlow p.1 (mix t * p.2))
          else acc) acc).1 = acc.1 + solarResidentialAmount techs mix := by
  induction techs with
  | nil => intro acc; simp [solarResidentialAmount]
  | cons t rest ih =>
    intro acc
    by_cases hpos : mix t > 0
    · simp only [List.foldl_cons, if_pos hpos, ih, solarResidentialAmount,
        List.map_cons, List.sum_cons]
      ring
    · simp only [List.foldl_cons, if_neg hpos, ih, solarResidentialAmount,
        List.map_cons, List.sum_cons]
      ring

/-- The accumulated `solar_amount` of the solar loop equals the sum of the
positive residential-solar mix values. -/
theorem solarFold_fst (mix : String → ℚ)
    (techSuppliers : String → List (Dataset × ℚ)) (techs : List String) :
    (solarFold mix techSuppliers techs).1 = solarResidentialAmount techs mix := by
  rw [solarFold, solarFold_go_fst]
  ring

theorem solarFold_go_sub (mix : String → ℚ)
    (techSuppliers : String → List (Dataset × ℚ)) (techs : List String) :
    ∀ (acc : ℚ × List Exchange) (x : Exchange), x ∈ acc.2 →
      x ∈ (techs.foldl
        (fun acc t =>
          if mix t > 0 then
            (acc.1 + mix t,
              acc.2 ++ (techSuppliers t).map fun p => supplierTechnoFlow p.1 (mix t * p.2))
          else acc) acc).2 := by
  induction techs with
  | nil => intro acc x hx; simpa using hx
  | cons t rest ih =>
    intro acc x hx
    by_cases hpos : mix t > 0
    · simp only [List.foldl_cons, if_pos hpos]
      exact ih _ x (List.mem_append_left _ hx)
    · simp only [List.foldl_cons, if_neg hpos]
      exact ih _ x hx

theorem solarFold_go_mem (mix : String → ℚ)
    (techSuppliers : String → List (Dataset × ℚ)) (techs : List String)
    (t : String) (ht : t ∈ techs) (hpos : mix t > 0)
    (p : Dataset × ℚ) (hp : p ∈ techSuppliers t) :
    ∀ acc : ℚ × List Exchange,
      supplierTechnoFlow p.1 (mix t * p.2) ∈ (techs.foldl
        (fun acc t =>
          if mix t > 0 then
            (acc.1 + mix t,
              acc.2 ++ (techSuppliers t).map fun p => supplierTechnoFlow p.1 (mix t * p.2))
          else acc) acc).2 := by
  induction techs with
  | nil => cases ht
  | cons u rest ih =>
    intro acc
    rcases List.mem_cons.mp ht with rfl | hmem
    · simp only [List.foldl_cons, if_pos hpos]
      apply solarFold_go_sub
      exact List.mem_append_right _ (List.mem_map.mpr ⟨p, hp, rfl⟩)
    · by_cases hu : mix u > 0
      · simp only [List.foldl_cons, if_pos hu]
        exact ih hmem _
      · simp only [List.foldl_cons, if_neg hu]
        exact ih hmem _

/-- Every supplier flow of a positive-mix residential-solar technology is in
the solar loop's flow list, with amount `mix value * share`. -/
theorem solarFold_mem (mix : String → ℚ)
    (techSuppliers : String → List (Dataset × ℚ)) (techs : List String)
    (t : String) (ht : t ∈ techs) (hpos : mix t > 0)
    (p : Dataset × ℚ) (hp : p ∈ techSuppliers t) :
    supplierTechnoFlow p.1 (mix t * p.2) ∈ (solarFold mix techSuppliers techs).2 :=
  solarFold_go_mem mix techSuppliers techs t ht hpos p hp (0, [])

/-- **C6** For every region and period, the low-voltage market contains a
technosphere input from the medium-voltage market of the same period of
amount (1 − residential-solar share of the mix) × (1 + low distribution
loss), a self-loop technosphere flow of amount equal to the low-voltage
transformation loss, and, for every residential-solar technology with a
positive mix value, one direct technosphere flow of amount
`mix value * share` per allocated supplier. -/
theorem low_voltage_market_flows (region : String) (period : Nat)
    (transf distr : ℚ) (techs : List String) (mix : String → ℚ)
    (techSuppliers : String → List (Dataset × ℚ))
    (sf6Sups netSups : List SupplierShare) :
    ({ name := mvMarketName period, product := "electricity, medium voltage",
       location := region, unit := "kilowatt hour",
       amount := (1 - solarResidentialAmount techs mix) * (1 + distr),
       kind := "technosphere" } : Exchange) ∈
        buildLowVoltageExchanges region period transf distr techs mix
          techSuppliers sf6Sups netSups ∧
    ({ name := lvMarketName period, product := "electricity, low voltage",
       location := region, unit := "kilowatt hour", amount := transf,
       kind := "technosphere" } : Exchange) ∈
        buildLowVoltageExchanges region period transf distr techs mix
          techSuppliers sf6Sups netSups ∧
    ∀ t ∈ techs, mix t > 0 → ∀ p ∈ techSuppliers t,
      supplierTechnoFlow p.1 (mix t * p.2) ∈
        buildLowVoltageExchanges region period transf distr techs mix
          techSuppliers sf6Sups netSups := by
  refine ⟨?_, ?_, ?_⟩
  · rw [buildLowVoltageExchanges]
    simp only [List.mem_append]
    right
    rw [solarFold_fst]
    simp
  · rw [buildLowVoltageExchanges]
    simp only [List.mem_append]
    right
    simp
  · intro t ht hpos p hp
    rw [buildLowVoltageExchanges]
    simp only [List.mem_append]
    left; right
    exact solarFold_mem mix techSuppliers techs t ht hpos p hp

/-- A concrete residential solar PV dataset used in witnesses. -/
def solarPlant : Dataset :=
  ⟨"electricity production, photovoltaic, 3kWp slanted-roof installation",
    "electricity, low voltage", "DE", "kilowatt hour", []⟩

/-- Witness for C6 at a concrete input: residential solar share 1/10 with a
single supplier of share 1, distribution loss 1/20 and transformation loss
1/50 — the medium-voltage input amount is (1 − 1/10) × (1 + 1/20) = 189/200,
the self-loop amount is 1/50 and the direct solar flow amount is 1/10. -/
theorem low_voltage_market_flows_witness :
    ({ name := mvMarketName 0, product := "electricity, medium voltage",
       location := "EUR", unit := "kilowatt hour", amount := 189/200,
       kind := "technosphere" } : Exchange) ∈
      buildLowVoltageExchanges "EUR" 0 (1/50) (1/20) ["Solar PV Residential"]
        (fun t => if t = "Solar PV Residential" then 1/10 else 0)
        (fun _ => [(solarPlant, 1)]) [] [] ∧
    ({ name := lvMarketName 0, product := "electricity, low voltage",
       location := "EUR", unit := "kilowatt hour", amount := 1/50,
       kind := "technosphere" } : Exchange) ∈
      buildLowVoltageExchanges "EUR" 0 (1/50) (1/20) ["Solar PV Residential"]
        (fun t => if t = "Solar PV Residential" then 1/10 else 0)
        (fun _ => [(solarPlant, 1)]) [] [] ∧
    supplierTechnoFlow solarPlant (1/10) ∈
      buildLowVoltageExchanges "EUR" 0 (1/50) (1/20) ["Solar PV Residential"]
        (fun t => if t = "Solar PV Residential" then 1/10 else 0)
        (fun _ => [(solarPlant, 1)]) [] [] := by
  have h := low_voltage_market_flows "EUR" 0 (1/50) (1/20) ["Solar PV Residential"]
    (fun t => if t = "Solar PV Residential" then 1/10 else 0)
    (fun _ => [(solarPlant, 1)]) [] []
  refine ⟨?_, h.2.1, ?_⟩
  · have h1 := h.1
    have hs : solarResidentialAmount ["Solar PV Residential"]
        (fun t => if t = "Solar PV Residential" then 1/10 else 0) = 1/10 := by
      rw [solarResidentialAmount]
      simp
    rw [hs] at h1
    have : (1 - (1:ℚ)/10) * (1 + 1/20) = 189/200 := by norm_num
    rw [this] at h1
    exact h1
  · have h3 := h.2.2 "Solar PV Residential" (by simp) (by simp)
      (solarPlant, 1) (by simp)
    have : (if ("Solar PV Residential" : String) = "Solar PV Residential"
        then (1:ℚ)/10 else 0) * 1 = 1/10 := by simp
    rw [supplierTechnoFlow] at h3 ⊢
    simpa [this] using h3

/-! ### High-voltage market construction -/

/-- Substring containment on character lists (Python's `in` operator on
strings). -/
def containsChars (pat : List Char) : List Char → Bool
  | [] => pat.isEmpty
  | c :: rest => pat.isPrefixOf (c :: rest) || containsChars pat rest

/-- `pat in s` for strings. -/
def strContains (s pat : String) : Bool := containsChars pat.data s.data

/-- `str.lower()`: lowercase every character. -/
def lowerString (s : String) : String := ⟨s.data.map Char.toLower⟩

/-- `"solar pv residential" in tech.lower()`: the test separating the
residential-solar technologies (handled in the low-voltage tier) from the
technologies entering the high-voltage mix. -/
def isResidentialSolarTech (t : String) : Bool :=
  strContains (lowerString t) "solar pv residential"

/-- The residential-solar share subtracted in the high-voltage builder: the
sum of the mix values of the residential-solar entries (summed
unconditionally, sign included). -/
def hvSolarAmount (vars : List String) (mix : String → ℚ) : ℚ :=
  (vars.map fun t => if isResidentialSolarTech t then mix t else 0).sum

/-- The exchange list of one high-voltage market dataset built by
`create_new_markets_high_voltage` for a region and period: the production
exchange, the self-consuming transformation-loss input, and, for each
non-residential-solar technology with a positive mix value, one technosphere
flow per allocated supplier of amount
(mix value × share) / (1 − residential-solar amount). -/
def buildHighVoltageExchanges (region : String) (period : Nat) (transf : ℚ)
    (vars : List String) (mix : String → ℚ)
    (techSuppliers : String → List (Dataset × ℚ)) : List Exchange :=
  [{ name := hvMarketName period, product := "electricity, high voltage",
     location := region, unit := "kilowatt hour", amount := 1,
     kind := "production" },
   { name := hvMarketName period, product := "electricity, high voltage",
     location := region, unit := "kilowatt hour", amount := transf,
     kind := "technosphere" }]
  ++ (vars.filter fun t => ! isResidentialSolarTech t).flatMap fun t =>
      if mix t > 0 then
        (techSuppliers t).map fun p =>
          supplierTechnoFlow p.1 ((mix t * p.2) / (1 - hvSolarAmount vars mix))
      else []

/-- **C1** For every region and period of a high-voltage market, every
non-residential-solar technology with a strictly positive mix value, and
every allocated supplier of that technology, the market contains a
technosphere flow to that supplier of amount
(mix value × supplier share) / (1 − residential-solar amount of the mix). -/
theorem high_voltage_flow_amounts (region : String) (period : Nat)
    (transf : ℚ) (vars : List String) (mix : String → ℚ)
    (techSuppliers : String → List (Dataset × ℚ)) (t : String)
    (ht : t ∈ vars) (hres : isResidentialSolarTech t = false)
    (hpos : mix t > 0) (p : Dataset × ℚ) (hp : p ∈ techSuppliers t) :
    supplierTechnoFlow p.1 ((mix t * p.2) / (1 - hvSolarAmount vars mix)) ∈
      buildHighVoltageExchanges region period transf vars mix techSuppliers := by
  rw [buildHighVoltageExchanges]
  apply List.mem_append_right
  rw [List.mem_flatMap]
  refine ⟨t, ?_, ?_⟩
  · rw [List.mem_filter]
    exact ⟨ht, by rw [hres]; rfl⟩
  · rw [if_pos hpos]
    exact List.mem_map.mpr ⟨p, hp, rfl⟩

/-- The allocation pipeline evaluated on the two concrete coal plants of
production volumes 80 and 20: shares 4/5 and 1/5 (the 0.1 % filter keeps
both, and renormalizing by the total 1 leaves them unchanged). -/
theorem coal_allocation_eval :
    allocateSuppliers coalProdIdx [coalPlantA, coalPlantB] =
      [(coalPlantA, 4/5), (coalPlantB, 1/5)] := by
  have hA : coalProdIdx (coalPlantA.name, coalPlantA.location) = 80 := by
    rw [coalProdIdx, if_pos rfl]
  have hB : coalProdIdx (coalPlantB.name, coalPlantB.location) = 20 := by
    rw [coalProdIdx, if_neg (by simp [coalPlantA, coalPlantB]), if_pos rfl]
  have hshA : getProductionWeightedShare coalProdIdx coalPlantA [coalPlantA, coalPlantB] = 4/5 := by
    rw [getProductionWeightedShare]
    simp only [List.map_cons, List.map_nil, List.sum_cons, List.sum_nil, hA, hB]
    norm_num
  have hshB : getProductionWeightedShare coalProdIdx coalPlantB [coalPlantA, coalPlantB] = 1/5 := by
    rw [getProductionWeightedShare]
    simp only [List.map_cons, List.map_nil, List.sum_cons, List.sum_nil, hA, hB]
    norm_num
  have hcheck : checkForProductionVolume coalProdIdx [coalPlantA, coalPlantB] =
      [coalPlantA, coalPlantB] := by
    rw [checkForProductionVolume]
    rw [List.filter_cons_of_pos (by simp [hshA]),
      List.filter_cons_of_pos (by simp [hshB])]
    rfl
  rw [allocateSuppliers, hcheck]
  simp only [List.map_cons, List.map_nil, hshA, hshB]
  rw [List.filter_cons_of_pos (by norm_num), List.filter_cons_of_pos (by norm_num)]
  simp only [List.filter_nil, List.map_cons, List.map_nil, List.sum_cons, List.sum_nil]
  norm_num

/-- The concrete technology list of the claim's scenario. -/
def scenarioVariables : List String := ["Coal PC", "Gas CC", "Hydro"]

/-- The concrete mix of the claim's scenario:
coal 0.3, gas 0.2, hydro 0.5. -/
def scenarioMix : String → ℚ := fun t =>
  if t = "Coal PC" then 3/10
  else if t = "Gas CC" then 1/5
  else if t = "Hydro" then 1/2
  else 0

/-- The concrete per-technology supplier allocation of the claim's scenario:
the two coal plants allocated by production volume, nothing else resolved. -/
def scenarioSuppliers : String → List (Dataset × ℚ) := fun t =>
  if t = "Coal PC" then allocateSuppliers coalProdIdx [coalPlantA, coalPlantB] else []

/-- Witness for C1 at the claim's scenario: mix coal share 0.3 with two coal
suppliers of volumes 80 and 20 (and no residential solar in the mix) yields
coal technosphere flows of amounts 0.24 = 6/25 and 0.06 = 3/50. -/
theorem high_voltage_flow_amounts_witness :
    supplierTechnoFlow coalPlantA (6/25) ∈
      buildHighVoltageExchanges "EUR" 0 (1/100) scenarioVariables scenarioMix
        scenarioSuppliers ∧
    supplierTechnoFlow coalPlantB (3/50) ∈
      buildHighVoltageExchanges "EUR" 0 (1/100) scenarioVariables scenarioMix
        scenarioSuppliers := by
  have hsolar : hvSolarAmount scenarioVariables scenarioMix = 0 := by
    rw [hvSolarAmount, scenarioVariables]
    simp only [List.map_cons, List.map_nil, List.sum_cons, List.sum_nil]
    rw [show isResidentialSolarTech "Coal PC" = false from rfl,
      show isResidentialSolarTech "Gas CC" = false from rfl,
      show isResidentialSolarTech "Hydro" = false from rfl]
    simp
  have hmixpos : scenarioMix "Coal PC" > 0 := by rw [scenarioMix]; norm_num
  have hA := high_voltage_flow_amounts "EUR" 0 (1/100) scenarioVariables scenarioMix
    scenarioSuppliers "Coal PC" (by rw [scenarioVariables]; simp) rfl hmixpos
    (coalPlantA, 4/5) (by rw [scenarioSuppliers, if_pos rfl, coal_allocation_eval]; simp)
  have hB := high_voltage_flow_amounts "EUR" 0 (1/100) scenarioVariables scenarioMix
    scenarioSuppliers "Coal PC" (by rw [scenarioVariables]; simp) rfl hmixpos
    (coalPlantB, 1/5) (by rw [scenarioSuppliers, if_pos rfl, coal_allocation_eval]; simp)
  rw [hsolar] at hA hB
  constructor
  · have : (scenarioMix "Coal PC" * (4/5)) / (1 - 0) = 6/25 := by
      rw [scenarioMix]; norm_num
    rwa [this] at hA
  · have : (scenarioMix "Coal PC" * (1/5)) / (1 - 0) = 3/50 := by
      rw [scenarioMix]; norm_num
    rwa [this] at hB

/-! ### Efficiency rescaler (`update_electricity_efficiency`) -/

/-- External collaborator `wurst.change_exchanges_by_constant_factor`,
modelled from the spec: scale every technosphere flow of the process by the
given constant factor. -/
def changeExchangesByConstantFactor (factor : ℚ) (d : Dataset) : Dataset :=
  { d with exchanges := d.exchanges.map fun e =>
      if e.kind = "technosphere" then { e with amount := e.amount * factor } else e }

/-- Per-dataset core of `update_electricity_efficiency`: the IAM efficiency
trajectory gives the relative efficiency change `iamEffChange`
(`IAM_eff_func`); the code computes `scaling_factor = 1 / iamEffChange` and
rescales the dataset's exchanges by that constant. -/
def rescaleDatasetEfficiency (iamEffChange : ℚ) (d : Dataset) : Dataset :=
  changeExchangesByConstantFactor (1 / iamEffChange) d

/-- `new_efficiency = np.clip(ei_eff * iamEffChange, 0, 1)`: the target
efficiency implied by the scenario for a dataset of current efficiency
`eiEff`. -/
def newEfficiency (eiEff iamEffChange : ℚ) : ℚ :=
  min (max (eiEff * iamEffChange) 0) 1

/-- **C8** For every dataset matched by the efficiency rescaler with current
implied efficiency e > 0 and scenario target efficiency
t = `new_efficiency` = e × (IAM efficiency change) (within the clip range),
every technosphere exchange amount of the dataset is multiplied by the factor
e / t, and non-technosphere exchanges are untouched. -/
theorem efficiency_rescale_factor (iamEffChange eiEff : ℚ) (d : Dataset)
    (he : 0 < eiEff) (hr : 0 < iamEffChange)
    (hclip : eiEff * iamEffChange ≤ 1) :
    (rescaleDatasetEfficiency iamEffChange d).exchanges =
      d.exchanges.map fun e =>
        if e.kind = "technosphere" then
          { e with amount := e.amount * (eiEff / newEfficiency eiEff iamEffChange) }
        else e := by
  have hnew : newEfficiency eiEff iamEffChange = eiEff * iamEffChange := by
    rw [newEfficiency, max_eq_left (le_of_lt (mul_pos he hr)), min_eq_left hclip]
  have hdiv : eiEff / (eiEff * iamEffChange) = 1 / iamEffChange := by
    rw [← div_div, div_self (ne_of_gt he)]
  rw [rescaleDatasetEfficiency, changeExchangesByConstantFactor]
  simp only [hnew, hdiv]

/-- A concrete gas power plant dataset used in witnesses: one production
exchange, one fuel input of amount 2, one biosphere emission. -/
def gasPlant : Dataset :=
  ⟨"electricity production, natural gas", "electricity, high voltage", "DE",
    "kilowatt hour",
    [⟨"electricity production, natural gas", "electricity, high voltage", "DE",
      "kilowatt hour", 1, "production"⟩,
     ⟨"market for natural gas, high pressure", "natural gas, high pressure",
      "DE", "cubic meter", 2, "technosphere"⟩,
     ⟨"Carbon dioxide, fossil", "", "", "kilogram", 3, "biosphere"⟩]⟩

/-- Witness for C8 at the claim's scenario: current efficiency 0.35 and IAM
change 8/7 give a target 0.35 × 8/7 = 0.40 and the factor
0.35 / 0.40 = 0.875, so the fuel input amount 2 becomes 2 × 7/8 = 7/4 while
the production and biosphere exchanges are untouched. -/
theorem efficiency_rescale_factor_witness :
    newEfficiency (7/20) (8/7) = 2/5 ∧
    (rescaleDatasetEfficiency (8/7) gasPlant).exchanges =
      [⟨"electricity production, natural gas", "electricity, high voltage", "DE",
        "kilowatt hour", 1, "production"⟩,
       ⟨"market for natural gas, high pressure", "natural gas, high pressure",
        "DE", "cubic meter", 7/4, "technosphere"⟩,
       ⟨"Carbon dioxide, fossil", "", "", "kilogram", 3, "biosphere"⟩] := by
  have h := efficiency_rescale_factor (8/7) (7/20) gasPlant
    (by norm_num) (by norm_num) (by norm_num)
  constructor
  · rw [newEfficiency]
    norm_num
  · rw [h, gasPlant]
    simp only [List.map_cons, List.map_nil]
    rw [if_neg (by decide), if_pos trivial, if_neg (by decide)]
    have : (2 : ℚ) * ((7/20) / newEfficiency (7/20) (8/7)) = 7/4 := by
      rw [newEfficiency]
      norm_num
    rw [this]

/-! ### Solar PV efficiency update (`update_efficiency_of_solar_pv`) -/

/-- `np.clip(new_eff, 0.1, 0.27)`: the projected module efficiency clamped to
the physically plausible range. -/
def clipEff (x : ℚ) : ℚ := min (max x (1/10)) (27/100)

/-- The updated panel-surface exchange amount of one photovoltaic
installation dataset: `power` is the rated power parsed from the dataset
name, `surface` the current panel-surface amount (so the current efficiency
is power / surface), `rawEff` the interpolated projected module efficiency
and `techMatched` whether the exchange name matched one of the known PV
technologies.  The amount is multiplied by current / new efficiency only when
the technology matched and the clamped new efficiency exceeds the current
one. -/
def updatedSurfaceAmount (power surface rawEff : ℚ) (techMatched : Bool) : ℚ :=
  let currentEff := power / surface
  let newEff := clipEff rawEff
  if techMatched = true ∧ newEff > currentEff then
    surface * (currentEff / newEff)
  else surface

/-- **C10** For positive rated power and panel surface: the surface amount is
changed only when the technology matched and the clamped projected efficiency
strictly exceeds the current efficiency power / surface; in that case it is
multiplied by (current / new), a factor strictly less than 1; in every other
case it is unchanged; and it never increases. -/
theorem solar_pv_surface_update (power surface rawEff : ℚ) (m : Bool)
    (hp : 0 < power) (hs : 0 < surface) :
    (m = true ∧ clipEff rawEff > power / surface →
      updatedSurfaceAmount power surface rawEff m =
        surface * ((power / surface) / clipEff rawEff) ∧
        (power / surface) / clipEff rawEff < 1) ∧
    (¬(m = true ∧ clipEff rawEff > power / surface) →
      updatedSurfaceAmount power surface rawEff m = surface) ∧
    updatedSurfaceAmount power surface rawEff m ≤ surface := by
  have hclip : 0 < clipEff rawEff := by
    rw [clipEff]
    apply lt_min
    · exact lt_max_of_lt_right (by norm_num)
    · norm_num
  have hcur : 0 < power / surface := div_pos hp hs
  refine ⟨?_, ?_, ?_⟩
  · intro hcond
    rw [updatedSurfaceAmount, if_pos hcond]
    exact ⟨rfl, (div_lt_one hclip).mpr hcond.2⟩
  · intro hcond
    rw [updatedSurfaceAmount, if_neg hcond]
  · by_cases hcond : m = true ∧ clipEff rawEff > power / surface
    · rw [updatedSurfaceAmount, if_pos hcond]
      apply mul_le_of_le_one_right (le_of_lt hs)
      exact le_of_lt ((div_lt_one hclip).mpr hcond.2)
    · rw [updatedSurfaceAmount, if_neg hcond]

/-- Witness for C10 at a concrete input: a 3 kWp installation with 20 m² of
panel (current efficiency 0.15) and projected efficiency 0.2 has its surface
amount reduced to 20 × (0.15 / 0.2) = 15 ≤ 20. -/
theorem solar_pv_surface_update_witness :
    updatedSurfaceAmount 3 20 (1/5) true = 15 ∧
    updatedSurfaceAmount 3 20 (1/5) true ≤ 20 := by
  have h := solar_pv_surface_update 3 20 (1/5) true (by norm_num) (by norm_num)
  have hcond : (true = true ∧ clipEff (1/5) > (3:ℚ) / 20) := by
    refine ⟨rfl, ?_⟩
    rw [clipEff]
    norm_num
  have h1 := (h.1 hcond).1
  have : (20:ℚ) * ((3 / 20) / clipEff (1/5)) = 15 := by
    rw [clipEff]
    norm_num
  rw [this] at h1
  exact ⟨h1, h.2.2⟩

/-! ### Region-specific plant duplicator: CHP CCS carbon-capture amounts -/

/-- `ws.get_one` on name, location, reference product and unit: `some` only
when exactly one dataset matches (zero or several matches raise). -/
def getOne (db : List Dataset) (e : Exchange) : Option Dataset :=
  match db.filter (fun d => d.name == e.name && d.location == e.location &&
      d.referenceProduct == e.product && d.unit == e.unit) with
  | [d] => some d
  | _ => none

/-- The summed biosphere carbon-dioxide amount of a dataset
(`ws.biosphere(ds, ws.contains("name", "Carbon dioxide"))`). -/
def biosphereCO2 (d : Dataset) : ℚ :=
  ((d.exchanges.filter fun e =>
      e.kind == "biosphere" && strContains e.name "Carbon dioxide").map
    fun e => e.amount).sum

/-- The electricity-supplying inputs of a duplicate plant: technosphere
exchanges in kilowatt hours. -/
def kWhProviders (plant : Dataset) : List Exchange :=
  plant.exchanges.filter fun e =>
    e.kind == "technosphere" && e.unit == "kilowatt hour"

/-- The `co2_amount` accumulation loop: for each provider, look its dataset
up in the database (raising — `none` — if the lookup fails) and add provider
amount × the provider dataset's summed biosphere CO2. -/
def co2Amount (db : List Dataset) (plant : Dataset) : Option ℚ :=
  (kWhProviders plant).foldl
    (fun acc e => acc.bind fun a =>
      (getOne db e).map fun ds => a + e.amount * biosphereCO2 ds)
    (some 0)

/-- The captured-CO2 technosphere input of a CHP CCS plant. -/
def isCaptureInput (e : Exchange) : Bool :=
  e.kind == "technosphere" && e.unit == "kilogram" &&
    "CO2 capture".isPrefixOf e.name

/-- The residual biosphere carbon-dioxide emission of a CHP CCS plant. -/
def isResidualCO2 (e : Exchange) : Bool :=
  e.kind == "biosphere" && e.unit == "kilogram" &&
    "Carbon dioxide".isPrefixOf e.name

/-- The first conditional of the adjustment loop: rewrite the amount of a
CO2-capture technosphere input to `c * 0.9`. -/
def capAdjust (c : ℚ) (e : Exchange) : Exchange :=
  if isCaptureInput e then { e with amount := c * (9/10) } else e

/-- The second conditional of the adjustment loop: rewrite the amount of a
residual biosphere CO2 emission to `c * 0.9`. -/
def resAdjust (c : ℚ) (e : Exchange) : Exchange :=
  if isResidualCO2 e then { e with amount := c * (9/10) } else e

/-- One pass of the adjustment loop body over a single exchange: the two
conditionals applied in source order. -/
def adjustedExchange (c : ℚ) (e : Exchange) : Exchange := resAdjust c (capAdjust c e)

/-- The CHP CCS adjustment of `create_region_specific_power_plants`: compute
`co2_amount` over the electricity providers, then set both the CO2-capture
technosphere input and the residual biosphere CO2 emission to
`co2_amount * 0.9`. -/
def adjustCHPCCS (db : List Dataset) (plant : Dataset) : Option Dataset :=
  (co2Amount db plant).map fun c =>
    { plant with exchanges := plant.exchanges.map (adjustedExchange c) }

/-- The sum named by the claim: over every kilowatt-hour technosphere
provider, the provider dataset's summed biosphere carbon-dioxide amount times
the provider exchange amount. -/
def claimedCaptureSum (db : List Dataset) (plant : Dataset) : ℚ :=
  ((kWhProviders plant).map fun e =>
    e.amount * biosphereCO2 ((getOne db e).getD ⟨"", "", "", "", []⟩)).sum

theorem co2Amount_go_eq (db : List Dataset) :
    ∀ (l : List Exchange) (a : ℚ), (∀ e ∈ l, (getOne db e).isSome) →
      l.foldl
        (fun acc e => acc.bind fun a =>
          (getOne db e).map fun ds => a + e.amount * biosphereCO2 ds)
        (some a) =
      some (a + (l.map fun e =>
        e.amount * biosphereCO2 ((getOne db e).getD ⟨"", "", "", "", []⟩)).sum) := by
  intro l
  induction l with
  | nil => intro a _; simp
  | cons e rest ih =>
    intro a h
    obtain ⟨ds, hds⟩ := Option.isSome_iff_exists.mp (h e (List.mem_cons_self e rest))
    rw [List.foldl_cons]
    have hstep : (some a).bind (fun a =>
        (getOne db e).map fun ds => a + e.amount * biosphereCO2 ds) =
        some (a + e.amount * biosphereCO2 ds) := by
      simp [hds]
    rw [hstep, ih _ (fun x hx => h x (List.mem_cons_of_mem e hx))]
    rw [List.map_cons, List.sum_cons, hds]
    simp only [Option.getD_some]
    rw [add_assoc]

/-- `co2_amount` equals the claim's sum when every provider lookup succeeds. -/
theorem co2Amount_eq_claimedSum (db : List Dataset) (plant : Dataset)
    (h : ∀ e ∈ kWhProviders plant, (getOne db e).isSome) :
    co2Amount db plant = some (claimedCaptureSum db plant) := by
  rw [co2Amount, claimedCaptureSum, co2Amount_go_eq db (kWhProviders plant) 0 h,
    zero_add]

theorem isCaptureInput_set_amount (e : Exchange) (x : ℚ) :
    isCaptureInput { e with amount := x } = isCaptureInput e := rfl

theorem isResidualCO2_set_amount (e : Exchange) (x : ℚ) :
    isResidualCO2 { e with amount := x } = isResidualCO2 e := rfl

theorem capture_not_residual (e : Exchange) (h : isCaptureInput e = true) :
    isResidualCO2 e = false := by
  rw [isCaptureInput] at h
  simp only [Bool.and_eq_true, beq_iff_eq] at h
  rw [isResidualCO2, h.1.1]
  rfl

/-- Whatever the exchange, after the two conditionals of the adjustment loop
a capture input or a residual emission carries the amount `c * 0.9`. -/
theorem adjustedExchange_spec (c : ℚ) (e : Exchange) :
    (isCaptureInput (adjustedExchange c e) = true →
      (adjustedExchange c e).amount = c * (9/10)) ∧
    (isResidualCO2 (adjustedExchange c e) = true →
      (adjustedExchange c e).amount = c * (9/10)) := by
  by_cases h1 : isCaptureInput e = true
  · have h2 : isResidualCO2 e = false := capture_not_residual e h1
    have hc : capAdjust c e = { e with amount := c * (9/10) } := by
      rw [capAdjust, if_pos h1]
    have hcond : ¬(isResidualCO2 (capAdjust c e) = true) := by
      rw [hc, isResidualCO2_set_amount, h2]
      simp
    have hr : adjustedExchange c e = { e with amount := c * (9/10) } := by
      rw [adjustedExchange, resAdjust, if_neg hcond, hc]
    refine ⟨fun _ => by rw [hr], fun hres => ?_⟩
    rw [hr, isResidualCO2_set_amount, h2] at hres
    cases hres
  · have hc : capAdjust c e = e := by rw [capAdjust, if_neg h1]
    by_cases h2 : isResidualCO2 e = true
    · have hr : adjustedExchange c e = { e with amount := c * (9/10) } := by
        rw [adjustedExchange, hc, resAdjust, if_pos h2]
      refine ⟨fun hcap => ?_, fun _ => by rw [hr]⟩
      rw [hr, isCaptureInput_set_amount] at hcap
      exact absurd hcap h1
    · have hr : adjustedExchange c e = e := by
        rw [adjustedExchange, hc, resAdjust, if_neg h2]
      rw [hr]
      exact ⟨fun hcap => absurd hcap h1, fun hres => absurd hres h2⟩

/-- **C9** For every database and CHP CCS plant duplicate whose
electricity-provider lookups all succeed, the adjustment completes and sets
both the CO2-capture technosphere input amount and the residual biosphere
carbon-dioxide emission amount to the same value: 0.9 times the sum, over
every kilowatt-hour technosphere provider, of the provider dataset's
biosphere carbon-dioxide amounts multiplied by the provider exchange
amount. -/
theorem chp_ccs_capture_amounts (db : List Dataset) (plant : Dataset)
    (h : ∀ e ∈ kWhProviders plant, (getOne db e).isSome) :
    ∃ plant2, adjustCHPCCS db plant = some plant2 ∧
      ∀ e ∈ plant2.exchanges,
        (isCaptureInput e = true →
          e.amount = claimedCaptureSum db plant * (9/10)) ∧
        (isResidualCO2 e = true →
          e.amount = claimedCaptureSum db plant * (9/10)) := by
  rw [adjustCHPCCS, co2Amount_eq_claimedSum db plant h]
  refine ⟨_, rfl, ?_⟩
  intro e' he'
  obtain ⟨e, _, rfl⟩ := List.mem_map.mp he'
  exact adjustedExchange_spec (claimedCaptureSum db plant) e

/-- A concrete coal provider dataset with a biosphere CO2 emission of 1 kg
per kWh, used in the C9 witness. -/
def providerPlant : Dataset :=
  ⟨"electricity production, hard coal", "electricity, high voltage", "DE",
    "kilowatt hour",
    [⟨"Carbon dioxide, fossil", "", "", "kilogram", 1, "biosphere"⟩]⟩

/-- A concrete CHP CCS plant duplicate used in the C9 witness: it draws
2 kWh from `providerPlant` and carries a CO2-capture input and a residual
CO2 emission (amounts to be re-derived). -/
def chpPlant : Dataset :=
  ⟨"heat and power co-generation, hard coal, CCS", "electricity, high voltage",
    "DE", "kilowatt hour",
    [⟨"electricity production, hard coal", "electricity, high voltage", "DE",
      "kilowatt hour", 2, "technosphere"⟩,
     ⟨"CO2 capture/storage", "carbon dioxide, captured", "DE", "kilogram",
      0, "technosphere"⟩,
     ⟨"Carbon dioxide, fossil", "", "", "kilogram", 0, "biosphere"⟩]⟩

/-- Witness for C9 at a concrete input: the provider supplies 2 kWh with
1 kg CO2 per kWh, so both capture and residual amounts are set to
0.9 × 2 = 9/5. -/
theorem chp_ccs_capture_amounts_witness :
    (∃ plant2, adjustCHPCCS [providerPlant] chpPlant = some plant2 ∧
      ∀ e ∈ plant2.exchanges,
        (isCaptureInput e = true →
          e.amount = claimedCaptureSum [providerPlant] chpPlant * (9/10)) ∧
        (isResidualCO2 e = true →
          e.amount = claimedCaptureSum [providerPlant] chpPlant * (9/10))) ∧
    claimedCaptureSum [providerPlant] chpPlant * (9/10) = 9/5 := by
  constructor
  · exact chp_ccs_capture_amounts [providerPlant] chpPlant
      (by simp [kWhProviders, chpPlant, getOne, providerPlant])
  · rw [show claimedCaptureSum [providerPlant] chpPlant = 2 by
      simp [claimedCaptureSum, kWhProviders, chpPlant, getOne, providerPlant,
        biosphereCO2, strContains, containsChars]]
    norm_num

end PremiseElec
